import Mathlib

/-
Verification of the serial package: a shallow embedding of the Port
session core (error mapping, configuration setters and getters, open,
close, the finalizer, and the deadline driven Read and Write dispatch),
with theorems settling the specified properties against it.

Provider calls (libserialport) are modelled by their effect on an
explicit state: the device's active configuration, the config object
p.c, the handle flag, and counters of the provider release calls.
Outcomes of fallible provider calls are passed in as status codes.
Time is modelled as nanoseconds in Int, with 0 the zero time.Time.
-/

namespace Serial

/-- Status code SP_OK of the provider enum sp_return. -/
def SP_OK : Int := 0

/-- Status code SP_ERR_ARG of the provider enum sp_return. -/
def SP_ERR_ARG : Int := -1

/-- Status code SP_ERR_FAIL of the provider enum sp_return. -/
def SP_ERR_FAIL : Int := -2

/-- Status code SP_ERR_MEM of the provider enum sp_return. -/
def SP_ERR_MEM : Int := -3

/-- Status code SP_ERR_SUPP of the provider enum sp_return. -/
def SP_ERR_SUPP : Int := -4

/-- Pin constant RTS_OFF used by Port.open. -/
def RTS_OFF : Int := 0

/-- Pin constant DTR_OFF used by Port.open. -/
def DTR_OFF : Int := 0

/-- Errors exported by the package; an Option value of none models a nil
Go error. -/
inductive GoError where
  | invalidArguments
  | system
  | memoryAllocation
  | unsupportedOperation
  deriving DecidableEq

/-- Embedding of errmsg: map a provider status code to a package error.
The Go switch handles the four named codes and falls through to nil for
every other code. -/
def errmsg (err : Int) : Option GoError :=
  if err = SP_ERR_ARG then some GoError.invalidArguments
  else if err = SP_ERR_FAIL then some GoError.system
  else if err = SP_ERR_MEM then some GoError.memoryAllocation
  else if err = SP_ERR_SUPP then some GoError.unsupportedOperation
  else none

/-- Fields of a serial configuration, shared by the device's active
settings and by the config object p.c. The provider expands a flow
control combination into pin fields inside the config object; the
combination is recorded abstractly in the flowcontrol field. -/
structure SpConfig where
  baudrate : Int
  bits : Int
  stopbits : Int
  parity : Int
  rts : Int
  cts : Int
  dtr : Int
  dsr : Int
  xonxoff : Int
  flowcontrol : Int
  deriving DecidableEq

/-- Embedding of the Options struct passed to Open; 0 means unset. -/
structure Options where
  Mode : Int
  Baudrate : Int
  DataBits : Int
  StopBits : Int
  Parity : Int
  FlowControl : Int
  deriving DecidableEq

/-- State of a Port together with the provider resources it owns. hw is
the device's active configuration, mutated by the provider port calls
sp_set_baudrate and sp_set_config; cfg is the config object p.c, mutated
by the sp_set_config_* calls and read by the getters. handleOpen tracks
the provider handle, pNonNil and cNonNil the two owned provider objects.
closeCalls, freePortCalls and freeConfigCalls count the provider release
calls, the observables of the lifecycle claims. readDeadline and
writeDeadline are nanosecond timestamps, 0 the zero time.Time. -/
structure PortState where
  hw : SpConfig
  cfg : SpConfig
  opened : Bool
  handleOpen : Bool
  pNonNil : Bool
  cNonNil : Bool
  closeCalls : Nat
  freePortCalls : Nat
  freeConfigCalls : Nat
  readDeadline : Int
  writeDeadline : Int
  deriving DecidableEq

/-- Effect of the provider call sp_close on the state: the handle is no
longer open and one more provider close has been issued. -/
def sp_close (p : PortState) : PortState :=
  { p with handleOpen := false, closeCalls := p.closeCalls + 1 }

/-- Embedding of Port.Close: it always invokes the provider close, maps
the returned status through errmsg, and clears the opened flag; there is
no check of the lifecycle state. closeRes is the status the provider
returns for this sp_close invocation. -/
def ClosePort (p : PortState) (closeRes : Int) : PortState × Option GoError :=
  let q := sp_close p
  ({ q with opened := false }, errmsg closeRes)

/-- Embedding of the finalizer Port.free: close the device only if the
opened flag is set, release the port object and the config object only
if still owned, then clear all three. -/
def freePort (p : PortState) : PortState :=
  let q := if p.opened then sp_close p else p
  let q := if q.pNonNil then { q with freePortCalls := q.freePortCalls + 1 } else q
  let q := if q.cNonNil then { q with freeConfigCalls := q.freeConfigCalls + 1 } else q
  { q with opened := false, pNonNil := false, cNonNil := false }

/-- Config object as allocated by the provider call sp_new_config, every
field initialized to -1. -/
def newConfig : SpConfig :=
  ⟨-1, -1, -1, -1, -1, -1, -1, -1, -1, -1⟩

/-- Embedding of newSerialPort on a device whose active configuration is
hw: the port object is wrapped, a config object is allocated, the port
is not opened, and zero value deadlines are in place. -/
def newSerialPort (hw : SpConfig) : PortState :=
  { hw := hw, cfg := newConfig, opened := false, handleOpen := false,
    pNonNil := true, cNonNil := true,
    closeCalls := 0, freePortCalls := 0, freeConfigCalls := 0,
    readDeadline := 0, writeDeadline := 0 }

/-- Embedding of Port.SetBaudrate. The method invokes the provider port
call sp_set_baudrate on p.p, which commits the rate to the open device
at once; the config object p.c is not touched. -/
def SetBaudrate (p : PortState) (baudrate : Int) : PortState :=
  { p with hw := { p.hw with baudrate := baudrate } }

/-- Embedding of Port.SetDataBits: sp_set_config_bits on the config
object p.c only. -/
def SetDataBits (p : PortState) (bits : Int) : PortState :=
  { p with cfg := { p.cfg with bits := bits } }

/-- Embedding of Port.SetStopBits: sp_set_config_stopbits on p.c only. -/
def SetStopBits (p : PortState) (stopbits : Int) : PortState :=
  { p with cfg := { p.cfg with stopbits := stopbits } }

/-- Embedding of Port.SetParity: sp_set_config_parity on p.c only. -/
def SetParity (p : PortState) (parity : Int) : PortState :=
  { p with cfg := { p.cfg with parity := parity } }

/-- Embedding of Port.SetRTS: sp_set_config_rts on p.c only. -/
def SetRTS (p : PortState) (rts : Int) : PortState :=
  { p with cfg := { p.cfg with rts := rts } }

/-- Embedding of Port.SetCTS: sp_set_config_cts on p.c only. -/
def SetCTS (p : PortState) (cts : Int) : PortState :=
  { p with cfg := { p.cfg with cts := cts } }

/-- Embedding of Port.SetDTR: sp_set_config_dtr on p.c only. -/
def SetDTR (p : PortState) (dtr : Int) : PortState :=
  { p with cfg := { p.cfg with dtr := dtr } }

/-- Embedding of Port.SetDSR: sp_set_config_dsr on p.c only. -/
def SetDSR (p : PortState) (dsr : Int) : PortState :=
  { p with cfg := { p.cfg with dsr := dsr } }

/-- Embedding of Port.SetXonXoff: sp_set_config_xon_xoff on p.c only. -/
def SetXonXoff (p : PortState) (xon : Int) : PortState :=
  { p with cfg := { p.cfg with xonxoff := xon } }

/-- Embedding of Port.SetFlowControl: sp_set_config_flowcontrol on p.c
only; the provider records the combination within the config object. -/
def SetFlowControl (p : PortState) (xon : Int) : PortState :=
  { p with cfg := { p.cfg with flowcontrol := xon } }

/-- Embedding of Port.Baudrate: sp_get_config_baudrate reads the config
object p.c, never the device; the error result is nil on the non null
config object carried here. -/
def Baudrate (p : PortState) : Int := p.cfg.baudrate

/-- Embedding of Port.DataBits: sp_get_config_bits reads p.c. -/
def DataBits (p : PortState) : Int := p.cfg.bits

/-- Embedding of Port.StopBits: sp_get_config_stopbits reads p.c. -/
def StopBits (p : PortState) : Int := p.cfg.stopbits

/-- Embedding of Port.Parity: sp_get_config_parity reads p.c. -/
def Parity (p : PortState) : Int := p.cfg.parity

/-- Embedding of Port.RTS: sp_get_config_rts reads p.c. -/
def RTS (p : PortState) : Int := p.cfg.rts

/-- Embedding of Port.CTS: sp_get_config_cts reads p.c. -/
def CTS (p : PortState) : Int := p.cfg.cts

/-- Embedding of Port.DTR: sp_get_config_dtr reads p.c. -/
def DTR (p : PortState) : Int := p.cfg.dtr

/-- Embedding of Port.DSR: sp_get_config_dsr reads p.c. -/
def DSR (p : PortState) : Int := p.cfg.dsr

/-- Embedding of Port.XonXoff: sp_get_config_xon_xoff reads p.c. -/
def XonXoff (p : PortState) : Int := p.cfg.xonxoff

/-- Embedding of Port.ApplyConfig: sp_set_config commits the whole
config object to the device. -/
def ApplyConfig (p : PortState) : PortState :=
  { p with hw := p.cfg }

/-- Embedding of the sp_get_config call issued by Port.open: copy the
device's active configuration into the config object. -/
def getConfig (p : PortState) : PortState :=
  { p with cfg := p.hw }

/-- Embedding of Port.open. Provider outcomes are parameters: openRes
for sp_open, getConfigRes for sp_get_config, handleRes for
sp_get_port_handle, and closeRes for the sp_close issued by an error
path Close, whose returned error open discards. The mode selection only
parameterizes the sp_open call and is omitted. The Go code assigns 9600
to its local opt.Baudrate when the field is 0, but calls SetBaudrate
only in the else branch, so the assigned default reaches nothing; this
is mirrored by leaving the state unchanged in the then branch. -/
def openPort (p : PortState) (opt : Options)
    (openRes getConfigRes handleRes closeRes : Int) :
    PortState × Option GoError :=
  match errmsg openRes with
  | some e => (p, some e)
  | none =>
    let q := { p with handleOpen := true }
    match errmsg getConfigRes with
    | some e => ((ClosePort q closeRes).1, some e)
    | none =>
      let q := getConfig q
      let q := if opt.Baudrate = 0 then q else SetBaudrate q opt.Baudrate
      let q := if opt.DataBits = 0 then SetDataBits q 8 else SetDataBits q opt.DataBits
      let q := if opt.StopBits = 0 then SetStopBits q 1 else SetStopBits q opt.StopBits
      let q := SetParity q opt.Parity
      let q := SetRTS q RTS_OFF
      let q := SetDTR q DTR_OFF
      let q := SetFlowControl q opt.FlowControl
      let q := ApplyConfig q
      match errmsg handleRes with
      | some e => ((ClosePort q closeRes).1, some e)
      | none => ({ q with opened := true }, none)

/-- Embedding of Port.SetReadDeadline: store the timestamp, return nil. -/
def SetReadDeadline (p : PortState) (t : Int) : PortState :=
  { p with readDeadline := t }

/-- Embedding of Port.SetWriteDeadline: store the timestamp, return nil. -/
def SetWriteDeadline (p : PortState) (t : Int) : PortState :=
  { p with writeDeadline := t }

/-- Embedding of Port.SetDeadline: store both timestamps, return nil. -/
def SetDeadline (p : PortState) (t : Int) : PortState :=
  { p with readDeadline := t, writeDeadline := t }

/-- Transfer call selected by Read and Write: fileRead is the unbounded
blocking transfer through the os.File, the other two are the provider
calls sp_nonblocking_read or write and sp_blocking_read or write, the
latter with a timeout in whole milliseconds. -/
inductive TransferCall where
  | fileRead
  | nonblocking
  | blocking (timeoutMs : Int)
  deriving DecidableEq

/-- Milliseconds until the deadline as Go computes them, the nanosecond
difference divided by one million with int64 division, which truncates
toward zero. -/
def goMillis (delta : Int) : Int := Int.tdiv delta 1000000

/-- Transfer call that Port.Read issues for a given read deadline and
current time, both in nanoseconds, 0 being the zero time.Time. The
int64 millisecond count is passed to the provider through a 32 bit
unsigned C parameter, so the timeout handed to the bounded blocking
call is the positive millis reduced modulo 2 to the 32. -/
def readTransfer (readDeadline now : Int) : TransferCall :=
  if readDeadline = 0 then TransferCall.fileRead
  else
    let millis := goMillis (readDeadline - now)
    if millis ≤ 0 then TransferCall.nonblocking
    else TransferCall.blocking (millis % 4294967296)

/-- Transfer call that Port.Write issues for a given write deadline and
current time; the dispatch mirrors Port.Read, with the same 32 bit
unsigned truncation of the timeout. -/
def writeTransfer (writeDeadline now : Int) : TransferCall :=
  if writeDeadline = 0 then TransferCall.fileRead
  else
    let millis := goMillis (writeDeadline - now)
    if millis ≤ 0 then TransferCall.nonblocking
    else TransferCall.blocking (millis % 4294967296)

/-- Outcome of Port.Read. The value none models the runtime panic raised
by the index expression taking the address of b[0] on a zero length
slice, which both deadline branches evaluate before calling the
provider. fileRes is the os.File read outcome used when the deadline is
unset; nbRes and bRes are the int32 counts or status codes the provider
returns from the nonblocking and the bounded blocking call. A negative
count maps through errmsg with a 0 byte count, any other count is
returned with a nil error. -/
def ReadPort (p : PortState) (now : Int) (blen : Nat)
    (fileRes : Int × Option GoError) (nbRes bRes : Int) :
    Option (Int × Option GoError) :=
  if p.readDeadline = 0 then some fileRes
  else if blen = 0 then none
  else
    let millis := goMillis (p.readDeadline - now)
    let c := if millis ≤ 0 then nbRes else bRes
    if c < 0 then some (0, errmsg c) else some (c, none)

/-- Outcome of Port.Write, structured exactly as Port.Read but governed
by the write deadline. -/
def WritePort (p : PortState) (now : Int) (blen : Nat)
    (fileRes : Int × Option GoError) (nbRes bRes : Int) :
    Option (Int × Option GoError) :=
  if p.writeDeadline = 0 then some fileRes
  else if blen = 0 then none
  else
    let millis := goMillis (p.writeDeadline - now)
    let c := if millis ≤ 0 then nbRes else bRes
    if c < 0 then some (0, errmsg c) else some (c, none)

/-- Mapping written from the specification wording of the ErrorMapper,
for comparison with errmsg: the four named codes map to their errors,
any other nonnegative code to no error, and any other negative code to
the system failure error. -/
def specErrorMapper (err : Int) : Option GoError :=
  if err = SP_ERR_ARG then some GoError.invalidArguments
  else if err = SP_ERR_FAIL then some GoError.system
  else if err = SP_ERR_MEM then some GoError.memoryAllocation
  else if err = SP_ERR_SUPP then some GoError.unsupportedOperation
  else if 0 ≤ err then none
  else some GoError.system

/-- Device configuration at the common 9600 baud 8N1 setting. -/
def cfg9600 : SpConfig := ⟨9600, 8, 1, 0, 0, 0, 0, 0, 0, 0⟩

/-- Device configuration currently at 115200 baud. -/
def cfg115200 : SpConfig := ⟨115200, 8, 1, 0, 0, 0, 0, 0, 0, 0⟩

/-- Opened port fixture: a port on a 9600 baud device after a successful
open, config object synced from the device, both provider objects live. -/
def openedPort : PortState :=
  { hw := cfg9600, cfg := cfg9600, opened := true, handleOpen := true,
    pNonNil := true, cNonNil := true,
    closeCalls := 0, freePortCalls := 0, freeConfigCalls := 0,
    readDeadline := 0, writeDeadline := 0 }

/-- Options value with every field unset. -/
def defaultOptions : Options := ⟨0, 0, 0, 0, 0, 0⟩

/-- Truncating division by one million is nonpositive on any value below
one million. -/
theorem goMillis_nonpos {delta : Int} (h : delta < 1000000) :
    goMillis delta ≤ 0 := by
  unfold goMillis
  by_cases h0 : 0 ≤ delta
  · rw [Int.tdiv_eq_ediv h0 (by norm_num)]
    exact le_of_eq (Int.ediv_eq_zero_of_lt h0 h)
  · have h1 : (0 : Int) ≤ -delta := by omega
    have h4 := Int.neg_tdiv (-delta) 1000000
    rw [neg_neg] at h4
    rw [h4, Int.tdiv_eq_ediv h1 (by norm_num)]
    have h3 : 0 ≤ (-delta) / 1000000 := Int.ediv_nonneg h1 (by norm_num)
    omega

/-- Truncating division by one million is positive at or above one
million and never rounds up. -/
theorem goMillis_pos {delta : Int} (h : 1000000 ≤ delta) :
    0 < goMillis delta ∧ goMillis delta * 1000000 ≤ delta := by
  have h0 : (0 : Int) ≤ delta := by omega
  unfold goMillis
  rw [Int.tdiv_eq_ediv h0 (by norm_num)]
  constructor
  · have := (Int.le_ediv_iff_mul_le (a := 1) (b := delta)
      (c := 1000000) (by norm_num)).mpr (by omega)
    omega
  · exact Int.ediv_mul_le delta (by norm_num)

/-- C1: counterexample. With the read deadline 500000 ns after now the
remaining time is strictly positive, so the claim requires the bounded
blocking transfer with the remaining time truncated to whole
milliseconds, yet Read issues the nonblocking transfer: the dispatch
tests the truncated milliseconds, not the raw remaining time. -/
theorem C1_counterexample :
    (0 : Int) < 500000 - 0 ∧
    readTransfer 500000 0 = TransferCall.nonblocking ∧
    readTransfer 500000 0 ≠ TransferCall.blocking (goMillis (500000 - 0)) := by
  refine ⟨by norm_num, by decide, by decide⟩

/-- C1 amended: Read and Write select the transfer by a three way policy
whose boundary sits at one millisecond of remaining time. An unset
deadline issues the unbounded blocking transfer; a set deadline with
remaining time under one millisecond, in particular any nonpositive
remaining time, issues the nonblocking transfer; a set deadline with at
least one millisecond remaining issues the bounded blocking transfer
whose timeout is the remaining time truncated to whole milliseconds and
then reduced modulo 2 to the 32 by the unsigned C parameter. The
truncated millisecond count itself is positive and never rounded up,
and it equals the passed timeout exactly when it is below 2 to the 32;
beyond that the passed timeout wraps. -/
theorem C1_amended_policy (d now : Int) (hd : d ≠ 0) :
    readTransfer 0 now = TransferCall.fileRead ∧
    writeTransfer 0 now = TransferCall.fileRead ∧
    (d - now < 1000000 →
      readTransfer d now = TransferCall.nonblocking ∧
      writeTransfer d now = TransferCall.nonblocking) ∧
    (1000000 ≤ d - now →
      readTransfer d now = TransferCall.blocking (goMillis (d - now) % 4294967296) ∧
      writeTransfer d now = TransferCall.blocking (goMillis (d - now) % 4294967296) ∧
      0 < goMillis (d - now) ∧ goMillis (d - now) * 1000000 ≤ d - now ∧
      (goMillis (d - now) < 4294967296 →
        goMillis (d - now) % 4294967296 = goMillis (d - now))) := by
  refine ⟨rfl, rfl, ?_, ?_⟩
  · intro h
    have hm := goMillis_nonpos h
    constructor <;> simp [readTransfer, writeTransfer, hd, hm]
  · intro h
    obtain ⟨h1, h2⟩ := goMillis_pos h
    have hm : ¬ goMillis (d - now) ≤ 0 := by omega
    refine ⟨?_, ?_, h1, h2, fun hlt => Int.emod_eq_of_lt (by omega) hlt⟩ <;>
      simp [readTransfer, writeTransfer, hd, hm]

/-- C1 amended, witness at a deadline 2.5 milliseconds ahead of now. -/
theorem C1_amended_policy_witness :
    readTransfer 2500000 0 = TransferCall.blocking (goMillis (2500000 - 0) % 4294967296) ∧
    writeTransfer 2500000 0 = TransferCall.blocking (goMillis (2500000 - 0) % 4294967296) ∧
    goMillis (2500000 - 0) % 4294967296 = goMillis (2500000 - 0) := by
  have h := C1_amended_policy 2500000 0 (by norm_num)
  have h2 := h.2.2.2 (by norm_num)
  exact ⟨h2.1, h2.2.1, h2.2.2.2.2 (by decide)⟩

/-- C2: evaluation at the failing input. Opening a device whose current
rate is 115200 with Baudrate unset succeeds, yet the applied rate stays
115200 rather than the documented default of 9600: open assigns 9600
only to its local copy of the options and never pushes it into the
configuration, unlike the data bits branch which calls the setter. -/
theorem C2_code_bug_eval :
    (openPort (newSerialPort cfg115200) defaultOptions SP_OK SP_OK SP_OK SP_OK).2 = none ∧
    (openPort (newSerialPort cfg115200) defaultOptions SP_OK SP_OK SP_OK SP_OK).1.opened = true ∧
    (openPort (newSerialPort cfg115200) defaultOptions SP_OK SP_OK SP_OK SP_OK).1.hw.baudrate = 115200 ∧
    (openPort (newSerialPort cfg115200) defaultOptions SP_OK SP_OK SP_OK SP_OK).1.hw.baudrate ≠ 9600 := by
  refine ⟨by decide, by decide, by decide, by decide⟩

/-- C3: counterexample. On an opened port whose applied data bits are 8,
SetDataBits 7 without ApplyConfig makes DataBits return the pending
value 7, not the previously applied 8: the getter reads the very config
object the setter mutates. -/
theorem C3_counterexample :
    DataBits openedPort = 8 ∧
    DataBits (SetDataBits openedPort 7) = 7 ∧
    DataBits (SetDataBits openedPort 7) ≠ DataBits openedPort := by
  refine ⟨by decide, by decide, by decide⟩

/-- C3 amended: only the baud rate behaves as the claim states.
SetBaudrate writes the device directly and bypasses the config object,
so Baudrate is unchanged by it; every other getter reads the config
object its setter mutates, so before ApplyConfig it returns the pending
value, not the previously applied one. -/
theorem C3_amended_getters (p : PortState) (x : Int) :
    Baudrate (SetBaudrate p x) = Baudrate p ∧
    DataBits (SetDataBits p x) = x ∧
    StopBits (SetStopBits p x) = x ∧
    Parity (SetParity p x) = x ∧
    RTS (SetRTS p x) = x ∧
    CTS (SetCTS p x) = x ∧
    DTR (SetDTR p x) = x ∧
    DSR (SetDSR p x) = x ∧
    XonXoff (SetXonXoff p x) = x :=
  ⟨rfl, rfl, rfl, rfl, rfl, rfl, rfl, rfl, rfl⟩

/-- C4: evaluation at the failing input. SetBaudrate 115200 on an opened
9600 baud port changes the device state at once through the provider
port call sp_set_baudrate and leaves the config object untouched, while
SetDataBits touches only the config object: the setters do not all
mutate only the desired snapshot. -/
theorem C4_code_bug_eval :
    (SetBaudrate openedPort 115200).hw.baudrate = 115200 ∧
    openedPort.hw.baudrate = 9600 ∧
    (SetBaudrate openedPort 115200).cfg = openedPort.cfg ∧
    (SetDataBits openedPort 7).hw = openedPort.hw := by
  refine ⟨by decide, by decide, by decide, by decide⟩

/-- C5: with both deadlines set through the public interface to a time
at or before now and a nonempty buffer, a zero count from the provider's
nonblocking transfer is returned by Read and by Write as a successful
zero byte transfer with a nil error, never as a timeout or other
error. -/
theorem C5_zero_is_success (p : PortState) (t now : Int) (blen : Nat)
    (fileRes : Int × Option GoError) (bRes : Int)
    (hd : t ≠ 0) (hpast : t ≤ now) (hlen : 0 < blen) :
    ReadPort (SetDeadline p t) now blen fileRes 0 bRes = some (0, none) ∧
    WritePort (SetDeadline p t) now blen fileRes 0 bRes = some (0, none) := by
  have hm : goMillis (t - now) ≤ 0 := goMillis_nonpos (by omega)
  have hb : blen ≠ 0 := by omega
  constructor <;>
    simp [ReadPort, WritePort, SetDeadline, hd, hb, hm]

/-- C5 witness: deadline 5, now 10, one byte buffer, provider returns 0. -/
theorem C5_zero_is_success_witness :
    ReadPort (SetDeadline openedPort 5) 10 1 (0, none) 0 0 = some (0, none) ∧
    WritePort (SetDeadline openedPort 5) 10 1 (0, none) 0 0 = some (0, none) :=
  C5_zero_is_success openedPort 5 10 1 (0, none) 0
    (by norm_num) (by norm_num) (by norm_num)

/-- C6: counterexample. Close on an already closed port is not a no-op:
it invokes the provider close a second time, and when the provider
reports the port closed with SP_ERR_ARG, as libserialport does, the
second Close returns the invalid arguments error rather than success. -/
theorem C6_counterexample :
    (ClosePort openedPort SP_OK).2 = none ∧
    (ClosePort (ClosePort openedPort SP_OK).1 SP_ERR_ARG).2 =
      some GoError.invalidArguments ∧
    (ClosePort (ClosePort openedPort SP_OK).1 SP_ERR_ARG).1.closeCalls = 2 := by
  refine ⟨by decide, by decide, by decide⟩

/-- C6 amended: Close is not guarded by lifecycle state. Every Close
invokes the provider close once more, clears the opened flag, and
returns the mapped provider status; a second Close therefore re-invokes
the provider close and succeeds only if the provider tolerates closing
an already closed port. -/
theorem C6_amended_close (p : PortState) (r1 r2 : Int) :
    (ClosePort p r1).1.opened = false ∧
    (ClosePort p r1).1.closeCalls = p.closeCalls + 1 ∧
    (ClosePort p r1).2 = errmsg r1 ∧
    (ClosePort (ClosePort p r1).1 r2).1.closeCalls = p.closeCalls + 2 ∧
    (ClosePort (ClosePort p r1).1 r2).2 = errmsg r2 :=
  ⟨rfl, rfl, rfl, rfl, rfl⟩

/-- C7: free after Close never invokes the provider close a second time,
free is idempotent, and free is safe on a port that was never opened,
where it closes nothing and releases the port and config objects exactly
once. -/
theorem C7_free_safe (p : PortState) (r : Int) (hw0 : SpConfig) :
    (freePort (ClosePort p r).1).closeCalls = (ClosePort p r).1.closeCalls ∧
    freePort (freePort p) = freePort p ∧
    (freePort (newSerialPort hw0)).closeCalls = 0 ∧
    (freePort (newSerialPort hw0)).freePortCalls = 1 ∧
    (freePort (newSerialPort hw0)).freeConfigCalls = 1 := by
  refine ⟨?_, ?_, rfl, rfl, rfl⟩
  · cases hb : p.pNonNil <;> cases hc : p.cNonNil <;>
      simp [freePort, ClosePort, sp_close, hb, hc]
  · cases ho : p.opened <;> cases hb : p.pNonNil <;> cases hc : p.cNonNil <;>
      simp [freePort, sp_close, ho, hb, hc]

/-- C8: whenever open returns an error after the provider open has
succeeded, the port is closed before the error is returned: the provider
close runs exactly once and the handle is no longer open, so no handle
leaks. -/
theorem C8_open_no_leak (p : PortState) (opt : Options)
    (openRes getConfigRes handleRes closeRes : Int)
    (hopen : errmsg openRes = none)
    (herr : (openPort p opt openRes getConfigRes handleRes closeRes).2 ≠ none) :
    (openPort p opt openRes getConfigRes handleRes closeRes).1.handleOpen = false ∧
    (openPort p opt openRes getConfigRes handleRes closeRes).1.closeCalls =
      p.closeCalls + 1 := by
  unfold openPort at herr ⊢
  rw [hopen] at herr ⊢
  cases hg : errmsg getConfigRes with
  | some e =>
    constructor <;> simp [ClosePort, sp_close]
  | none =>
    rw [hg] at herr
    cases hh : errmsg handleRes with
    | some e =>
      refine ⟨by simp [ClosePort, sp_close], ?_⟩
      simp only [ClosePort, sp_close, ApplyConfig, SetFlowControl, SetDTR,
        SetRTS, SetParity, getConfig]
      split <;> split <;> split <;>
        simp [SetBaudrate, SetDataBits, SetStopBits]
    | none =>
      rw [hh] at herr
      simp at herr

/-- C8 witness: the provider open succeeds and sp_get_config fails. -/
theorem C8_open_no_leak_witness :
    (openPort (newSerialPort cfg9600) defaultOptions SP_OK SP_ERR_FAIL SP_OK SP_OK).1.handleOpen = false ∧
    (openPort (newSerialPort cfg9600) defaultOptions SP_OK SP_ERR_FAIL SP_OK SP_OK).1.closeCalls =
      (newSerialPort cfg9600).closeCalls + 1 :=
  C8_open_no_leak (newSerialPort cfg9600) defaultOptions SP_OK SP_ERR_FAIL SP_OK SP_OK
    (by decide) (by decide)

/-- C9: counterexample. The unknown negative status code -5 maps to no
error in errmsg, where the claim, like the specification mapping,
requires the system failure error with the raw code retained. -/
theorem C9_counterexample :
    errmsg (-5) = none ∧
    specErrorMapper (-5) = some GoError.system ∧
    errmsg (-5) ≠ specErrorMapper (-5) := by
  refine ⟨by decide, by decide, by decide⟩

/-- C9 amended: errmsg maps the four named codes to their errors and
every other code, negative or not, to no error; unknown negative codes
are not reported and no raw code is retained. -/
theorem C9_amended_errmsg (e : Int)
    (h1 : e ≠ SP_ERR_ARG) (h2 : e ≠ SP_ERR_FAIL)
    (h3 : e ≠ SP_ERR_MEM) (h4 : e ≠ SP_ERR_SUPP) :
    errmsg SP_ERR_ARG = some GoError.invalidArguments ∧
    errmsg SP_ERR_FAIL = some GoError.system ∧
    errmsg SP_ERR_MEM = some GoError.memoryAllocation ∧
    errmsg SP_ERR_SUPP = some GoError.unsupportedOperation ∧
    errmsg e = none := by
  refine ⟨by decide, by decide, by decide, by decide, ?_⟩
  simp [errmsg, h1, h2, h3, h4]

/-- C9 amended, witness at the unknown negative code -5. -/
theorem C9_amended_errmsg_witness :
    errmsg SP_ERR_ARG = some GoError.invalidArguments ∧
    errmsg SP_ERR_FAIL = some GoError.system ∧
    errmsg SP_ERR_MEM = some GoError.memoryAllocation ∧
    errmsg SP_ERR_SUPP = some GoError.unsupportedOperation ∧
    errmsg (-5) = none :=
  C9_amended_errmsg (-5) (by decide) (by decide) (by decide) (by decide)

/-- C10: with a nonzero deadline installed through the public
SetReadDeadline or SetWriteDeadline, a zero length buffer drives both
deadline branches of Read and Write into the index expression taking the
address of b[0] on the empty slice, so the call panics instead of
returning a zero byte success. -/
theorem C10_empty_buffer_panics (p : PortState) (t now : Int)
    (fileRes : Int × Option GoError) (nbRes bRes : Int) (hd : t ≠ 0) :
    ReadPort (SetReadDeadline p t) now 0 fileRes nbRes bRes = none ∧
    WritePort (SetWriteDeadline p t) now 0 fileRes nbRes bRes = none := by
  constructor <;>
    simp [ReadPort, WritePort, SetReadDeadline, SetWriteDeadline, hd]

/-- C10 witness: deadline one nanosecond, empty buffer. -/
theorem C10_empty_buffer_panics_witness :
    ReadPort (SetReadDeadline openedPort 1) 0 0 (0, none) 0 0 = none ∧
    WritePort (SetWriteDeadline openedPort 1) 0 0 (0, none) 0 0 = none :=
  C10_empty_buffer_panics openedPort 1 0 (0, none) 0 0 (by decide)

end Serial
